import Mathlib

/-!
Verification of the PolyBus Python message-bus library against its
natural-language specification.  The definitions below are a shallow
embedding of the code under `src/src/python/src`: pure functions become
Lean functions, mutation becomes explicit state passing, Python
exceptions become `Except` / `Option` error components, and
`async`/`await` effects are made explicit (an un-awaited coroutine is a
distinguished value).  Message payloads are kept polymorphic in a type
`α` since the code treats them opaquely.
-/

/-! ## Message identity (MessageInfo)

`message_info.py` is referenced throughout the sources but is not part of
the repository snapshot, so its data and string form are modelled from the
spec. -/

/-- Modelled from the spec: `message_type.py` is absent from the sources.
`kind ∈ {command, event}`. -/
inductive MessageType where
  | command
  | event
deriving DecidableEq

/-- Modelled from the spec: `message_info.py` is absent from the sources.
MessageInfo is the tuple `(kind, endpoint, name, major, minor, patch)`. -/
structure MessageInfo where
  message_type : MessageType
  endpoint : String
  name : String
  major : Nat
  minor : Nat
  patch : Nat
deriving DecidableEq

/-- The kind token is emitted lowercase (spec, section 4.1). -/
def MessageType.lower : MessageType → String
  | .command => "command"
  | .event => "event"

/-- Modelled from the spec: canonical string form of a MessageInfo,
`endpoint=<endpoint>, type=<kind>, name=<name>[, version=<major>.<minor>.<patch>]`;
the version segment is present iff `include_version`. -/
def MessageInfo.to_string (info : MessageInfo) (include_version : Bool) : String :=
  "endpoint=" ++ info.endpoint ++ ", type=" ++ info.message_type.lower ++
    ", name=" ++ info.name ++
    (if include_version then
      ", version=" ++ toString info.major ++ "." ++ toString info.minor ++
        "." ++ toString info.patch
    else "")

/-! ## Errors (`poly_bus_error.py` and subclasses) -/

/-- `PolyBusError`: the library's base error carrying a stable integer code
and a message (`poly_bus_error.py`). -/
structure PolyBusError where
  error_code : Int
  message : String
deriving DecidableEq

/-- `PolyBusNotStartedError` (`poly_bus_not_started_error.py`): code 1. -/
def polyBusNotStartedError : PolyBusError :=
  ⟨1, "PolyBus has not been started. Please call IPolyBus.start() before using the bus."⟩

/-- `PolyBusMessageNotFoundError` (`poly_bus_message_not_found_error.py`): code 2. -/
def polyBusMessageNotFoundError : PolyBusError :=
  ⟨2, "The requested type, attribute/decorator, or header was not found."⟩

/-- A Python exception as observed by the pipeline: either one of the
library's coded errors or an arbitrary error raised by user middleware
(identified by its `str()` rendering). -/
inductive PyErr where
  | polyBus (e : PolyBusError)
  | user (s : String)
deriving DecidableEq

/-- `str(error)` for an exception: Python renders an `Exception` as its
message argument. -/
def PyErr.str : PyErr → String
  | .polyBus e => e.message
  | .user s => s

/-! ## Header maps

Python `dict[str, str]` with case-sensitive keys and last-write-wins
update, embedded as an association list with unique keys. -/

/-- A header map (`Message.headers`). -/
abbrev HeaderMap : Type := List (String × String)

/-- `headers.get(key)` — lookup without default. -/
def hget (h : HeaderMap) (k : String) : Option String :=
  (List.find? (fun p => p.1 == k) h).map (fun p => p.2)

/-- `headers[key] = value` — replace in place when the key is present,
append otherwise. -/
def hset (h : HeaderMap) (k v : String) : HeaderMap :=
  if List.any h (fun p => p.1 == k) then
    List.map (fun p => if p.1 == k then (k, v) else p) h
  else
    h ++ [(k, v)]

/-! ## Python `int()` parsing

`ErrorHandler.retrier` parses the retry-count header with `int(...)` and
treats `ValueError` as 0.  `int()` accepts surrounding whitespace, an
optional sign and a nonempty run of decimal digits. -/

/-- Python `int(s)` on a plain decimal string — surrounding whitespace,
an optional sign, then a nonempty run of decimal digits; `none` models
`ValueError`.  (Python additionally accepts `_` digit separators, which
never occur in headers this library writes.) -/
def pyParseInt (s : String) : Option Int :=
  let t := ((s.data.dropWhile Char.isWhitespace).reverse.dropWhile Char.isWhitespace).reverse
  let signed : Bool × List Char :=
    match t with
    | '-' :: rest => (true, rest)
    | '+' :: rest => (false, rest)
    | _ => (false, t)
  if signed.2 ≠ [] ∧ signed.2.all Char.isDigit then
    let n : Int := signed.2.foldl (fun acc c => acc * 10 + ((c.toNat - 48 : Nat) : Int)) 0
    some (if signed.1 then -n else n)
  else
    none

/-! ## Messages and the registry (`messages.py`) -/

/-- The `Messages` registry: Python keeps `_types : Dict[Type, (MessageInfo, str)]`;
Python types are embedded by their (unique) qualified names, so the map
becomes an association list from type name to the registered info and its
canonical header. -/
structure Messages where
  types : List (String × MessageInfo × String)
deriving DecidableEq

/-- The registered entry for a type, if any (`self._types.get(message_type)`). -/
def Messages.lookupType (reg : Messages) (typeName : String) : Option (MessageInfo × String) :=
  (List.find? (fun p => p.1 == typeName) reg.types).map (fun p => p.2)

/-- `Messages.get_message_info`: the info registered for a type, or
`PolyBusMessageNotFoundError` when the type is absent. -/
def Messages.get_message_info (reg : Messages) (typeName : String) :
    Except PolyBusError MessageInfo :=
  match reg.lookupType typeName with
  | none => .error polyBusMessageNotFoundError
  | some entry => .ok entry.1

/-! ## Envelope data model -/

/-- `IncomingMessage` (`incoming_message.py`): headers, raw body, the
(possibly deserialized) payload `message` and the MessageInfo.  The
resolved user type is carried as its name. -/
structure IncomingMessage (α : Type) where
  headers : HeaderMap
  body : String
  message : α
  message_info : MessageInfo
  message_type : String

/-- `OutgoingMessage` (`outgoing_message.py`): typed payload, its type
name, MessageInfo, body, optional endpoint override, optional
`deliver_at` timestamp (embedded as seconds on an integer clock) and
headers. -/
structure OutgoingMessage (α : Type) where
  message : α
  message_type : String
  message_info : MessageInfo
  body : String
  endpoint : Option String
  deliver_at : Option Int
  headers : HeaderMap

/-- `OutgoingMessage.__init__` when `message_info` is supplied (no registry
lookup happens): `_body = ""`, `_deliver_at = None`, and headers start
empty (the `Message` base holds the header map; `message.py` is absent
from the sources, the empty initial map is modelled from the spec's
"base: owning bus reference + header map"). -/
def OutgoingMessage.initWithInfo {α : Type} (typeOf : α → String) (msg : α)
    (endpoint : Option String) (info : MessageInfo) : OutgoingMessage α :=
  { message := msg
    message_type := typeOf msg
    message_info := info
    body := ""
    endpoint := endpoint
    deliver_at := none
    headers := [] }

/-- `OutgoingMessage.__init__` in general: when no `message_info` is given
the constructor resolves it through `bus.messages.get_message_info(type(message))`,
which raises `PolyBusMessageNotFoundError` for an unregistered type. -/
def OutgoingMessage.init {α : Type} (reg : Messages) (typeOf : α → String) (msg : α)
    (endpoint : Option String) (info : Option MessageInfo) :
    Except PolyBusError (OutgoingMessage α) :=
  match info with
  | some i => .ok (OutgoingMessage.initWithInfo typeOf msg endpoint i)
  | none =>
    match reg.get_message_info (typeOf msg) with
    | .error e => .error e
    | .ok i => .ok (OutgoingMessage.initWithInfo typeOf msg endpoint i)

/-! ## Transactions (`transaction.py`)

`incoming_transaction.py` / `outgoing_transaction.py` are absent from the
sources; per the spec, `IncomingTransaction` additionally owns the
triggering IncomingMessage and `OutgoingTransaction` does not.  The
`abortCount` field instruments how many times the (default no-op,
overridable) `abort` hook has been invoked. -/

/-- Modelled from the spec: an incoming transaction owns the triggering
incoming message plus the base transaction's ordered outgoing batch. -/
structure IncomingTransaction (α : Type) where
  incoming_message : IncomingMessage α
  outgoing_messages : List (OutgoingMessage α)
  abortCount : Nat

/-- Modelled from the spec: an outgoing transaction is the base
transaction (ordered outgoing batch) without an incoming message. -/
structure OutgoingTransaction (α : Type) where
  outgoing_messages : List (OutgoingMessage α)
  abortCount : Nat

/-- A transaction is one of the two variants (spec design note: a sum
type `Transaction = Incoming | Outgoing`). -/
inductive Transaction (α : Type) where
  | incoming (t : IncomingTransaction α)
  | outgoing (t : OutgoingTransaction α)

/-- The transaction's ordered list of pending outgoing messages. -/
def Transaction.outgoing_messages {α : Type} : Transaction α → List (OutgoingMessage α)
  | .incoming t => t.outgoing_messages
  | .outgoing t => t.outgoing_messages

/-- Replace the outgoing batch. -/
def Transaction.withOutgoing {α : Type} (tx : Transaction α)
    (msgs : List (OutgoingMessage α)) : Transaction α :=
  match tx with
  | .incoming t => .incoming { t with outgoing_messages := msgs }
  | .outgoing t => .outgoing { t with outgoing_messages := msgs }

/-- How many times `transaction.abort()` has been invoked. -/
def Transaction.abortCount {α : Type} : Transaction α → Nat
  | .incoming t => t.abortCount
  | .outgoing t => t.abortCount

/-- `Transaction.abort()`: the overridable hook; the model records the
invocation. -/
def Transaction.abort {α : Type} : Transaction α → Transaction α
  | .incoming t => .incoming { t with abortCount := t.abortCount + 1 }
  | .outgoing t => .outgoing { t with abortCount := t.abortCount + 1 }

/-- `Transaction.add(message, endpoint)`: construct an OutgoingMessage
(performing the registry lookup, since no explicit MessageInfo is passed)
and append it.  The pair returns the transaction as left by the call:
when the constructor raises, nothing has been appended yet. -/
def Transaction.add {α : Type} (reg : Messages) (typeOf : α → String)
    (tx : Transaction α) (msg : α) (endpoint : Option String) :
    Transaction α × Except PolyBusError (OutgoingMessage α) :=
  match OutgoingMessage.init reg typeOf msg endpoint none with
  | .error e => (tx, .error e)
  | .ok om => (tx.withOutgoing (tx.outgoing_messages ++ [om]), .ok om)

/-! ## The in-memory endpoint (`in_memory_endpoint.py`) -/

/-- `InMemoryEndpoint`: bound to a bus (kept by name), an active flag and
the subscription set, keyed by the MessageInfo string form without
version. -/
structure InMemoryEndpoint where
  busName : String
  active : Bool
  subscriptions : List String
deriving DecidableEq

/-- `dead_letter_endpoint`: derived as `"<bus-name>.dead.letters"`. -/
def InMemoryEndpoint.dead_letter_endpoint (ep : InMemoryEndpoint) : String :=
  ep.busName ++ ".dead.letters"

/-- `handle(transaction)`: raises `PolyBusNotStartedError` when the
endpoint is not active, otherwise hands the transaction to the broker's
`send` (which returns without raising). -/
def InMemoryEndpoint.handle {α : Type} (ep : InMemoryEndpoint) (_tx : Transaction α) :
    Except PolyBusError Unit :=
  if ep.active then .ok () else .error polyBusNotStartedError

/-- `subscribe(message_info)`: raises `PolyBusNotStartedError` when not
active, otherwise records the subscription under the without-version
string key (`self._subscriptions[info.to_string(include_version=False)] = True`). -/
def InMemoryEndpoint.subscribe (ep : InMemoryEndpoint) (info : MessageInfo) :
    Except PolyBusError InMemoryEndpoint :=
  if ep.active then
    .ok { ep with
          subscriptions :=
            if ep.subscriptions.contains (info.to_string false) then ep.subscriptions
            else ep.subscriptions ++ [info.to_string false] }
  else
    .error polyBusNotStartedError

/-- `is_subscribed(message_info)`: membership of the without-version
string in the subscription set. -/
def InMemoryEndpoint.is_subscribed (ep : InMemoryEndpoint) (info : MessageInfo) : Bool :=
  ep.subscriptions.contains (info.to_string false)

/-- `start()`: sets the active flag. -/
def InMemoryEndpoint.start (ep : InMemoryEndpoint) : InMemoryEndpoint :=
  { ep with active := true }

/-- `stop()`: clears the active flag. -/
def InMemoryEndpoint.stop (ep : InMemoryEndpoint) : InMemoryEndpoint :=
  { ep with active := false }

/-! ## The in-memory broker (`in_memory_message_broker.py`) -/

/-- An association-list update keyed by string (Python dict assignment). -/
def listDictSet {β : Type} (l : List (String × β)) (k : String) (v : β) :
    List (String × β) :=
  if List.any l (fun p => p.1 == k) then
    List.map (fun p => if p.1 == k then (k, v) else p) l
  else
    l ++ [(k, v)]

/-- `InMemoryMessageBroker`: the endpoint map keyed by bus name. -/
structure InMemoryMessageBroker where
  endpoints : List (String × InMemoryEndpoint)
deriving DecidableEq

/-- `add_endpoint(builder, bus)`: creates an `InMemoryEndpoint` for the
bus, registers it under the bus name and returns it.  (The source method
is `async`; this is the value produced when it is actually awaited.) -/
def InMemoryMessageBroker.add_endpoint (b : InMemoryMessageBroker) (busName : String) :
    InMemoryMessageBroker × InMemoryEndpoint :=
  let ep : InMemoryEndpoint := ⟨busName, false, []⟩
  (⟨listDictSet b.endpoints busName ep⟩, ep)

/-! ## Builder and the default transport factory (`poly_bus_builder.py`)

`_default_transport_factory` creates an `InMemoryMessageBroker` and then
executes `return transport.add_endpoint(builder, bus)` — calling the
`async` method without `await`, so the factory's awaited result is the
coroutine object itself, not the endpoint.  The embedding keeps this
distinction explicit. -/

/-- What `await self.transport_factory(self, bus)` can evaluate to: an
actual `ITransport` (the in-memory endpoint), or an un-awaited coroutine
object of `add_endpoint` (which has registered nothing and is not an
`ITransport`). -/
inductive TransportValue where
  | endpoint (e : InMemoryEndpoint)
  | unawaitedAddEndpoint (broker : InMemoryMessageBroker) (busName : String)
deriving DecidableEq

/-- Whether the stored value is an `ITransport` (usable as a transport). -/
def TransportValue.isITransport : TransportValue → Bool
  | .endpoint _ => true
  | .unawaitedAddEndpoint _ _ => false

/-- `_default_transport_factory(builder, bus)`: instantiates a fresh
broker and returns `transport.add_endpoint(builder, bus)` without
awaiting it. -/
def default_transport_factory (busName : String) : TransportValue :=
  let transport : InMemoryMessageBroker := ⟨[]⟩
  TransportValue.unawaitedAddEndpoint transport busName

/-- `PolyBusBuilder` configuration relevant here: the bus name (default
`"polybus"`); the transport factory is left at its default. -/
structure PolyBusBuilder where
  name : String := "polybus"
deriving DecidableEq

/-- The bus as produced by `build()`: the name and the stored transport
value. -/
structure BuiltPolyBus where
  name : String
  transport : TransportValue
deriving DecidableEq

/-- `PolyBusBuilder.build()` with the default transport factory:
instantiates the bus, then stores `await self.transport_factory(self, bus)`
as the bus's transport. -/
def PolyBusBuilder.build (b : PolyBusBuilder) : BuiltPolyBus :=
  ⟨b.name, default_transport_factory b.name⟩

/-! ## The pipeline engine (`poly_bus.py`, `PolyBus.send`)

Handlers mutate the transaction in place and may raise; state passing
makes that explicit: a step consumes the transaction state and returns
the (possibly mutated) state together with the error it raised, if any. -/

/-- A step of a composed chain (`final_step` / `handler_step` in
`PolyBus.send`): acts on the transaction and either returns normally or
raises, the mutated transaction being observable in both cases. -/
abbrev PipelineStep (α : Type) : Type := Transaction α → Transaction α × Option PyErr

/-- A middleware handler (`IncomingHandler` / `OutgoingHandler`): receives
the transaction and a `next` continuation; with the transaction state
threaded through the step, a handler transforms its `next` step. -/
abbrev PipelineHandler (α : Type) : Type := PipelineStep α → PipelineStep α

/-- The bus as `PolyBus.send` sees it: the two pipelines and the
transport's `handle` as the terminal step. -/
structure PolyBus (α : Type) where
  name : String
  incoming_pipeline : List (PipelineHandler α)
  outgoing_pipeline : List (PipelineHandler α)
  transportHandle : PipelineStep α

/-- `PolyBus.send`'s chain construction: `step = final_step`, then for
`index` from `len(handlers) - 1` down to `0` the current step is wrapped
with `handlers[index]` — a left fold over the reversed pipeline. -/
def composeChain {α : Type} (handlers : List (PipelineHandler α))
    (term : PipelineStep α) : PipelineStep α :=
  handlers.reverse.foldl (fun step h => h step) term

/-- `PolyBus.send(transaction)`: selects the pipeline by the transaction
variant, composes the chain over the transport's `handle`, invokes the
outermost step, and on a raise calls `transaction.abort()` and re-raises. -/
def PolyBus.send {α : Type} (bus : PolyBus α) (tx : Transaction α) :
    Transaction α × Option PyErr :=
  let step : PipelineStep α :=
    match tx with
    | .incoming _ => composeChain bus.incoming_pipeline bus.transportHandle
    | .outgoing _ => composeChain bus.outgoing_pipeline bus.transportHandle
  match step tx with
  | (tx2, none) => (tx2, none)
  | (tx2, some e) => (tx2.abort, some e)

/-- The chain `send` composes for a transaction's variant (named so the
theorems below can speak about the outermost step's own result). -/
def sendStepOf {α : Type} (bus : PolyBus α) (tx : Transaction α) : PipelineStep α :=
  match tx with
  | .incoming _ => composeChain bus.incoming_pipeline bus.transportHandle
  | .outgoing _ => composeChain bus.outgoing_pipeline bus.transportHandle

/-! ### Concrete pipeline instances

Used to exhibit that an error raised by an inner handler and absorbed by
an outer one (the retry handler's very purpose) reaches neither
`transaction.abort()` nor the caller. -/

/-- A sample MessageInfo. -/
def egInfo : MessageInfo := ⟨MessageType.event, "alpha", "alpha-event", 1, 0, 0⟩

/-- A concrete incoming transaction with an empty outgoing batch. -/
def egIncomingTx : Transaction Unit :=
  .incoming ⟨⟨[], "", (), egInfo, "str"⟩, [], 0⟩

/-- A handler whose invocation always raises. -/
def raisingHandler : PipelineHandler Unit :=
  fun _next => fun tx => (tx, some (PyErr.user "boom"))

/-- A handler that invokes `next` and absorbs any error it raises (the
shape of the retry handler's try/except around `next`). -/
def absorbingHandler : PipelineHandler Unit :=
  fun next => fun tx =>
    match next tx with
    | (tx2, some _) => (tx2, none)
    | r => r

/-- A bus whose incoming pipeline is `[absorbingHandler, raisingHandler]`
over a transport whose `handle` succeeds. -/
def egAbsorbBus : PolyBus Unit :=
  ⟨"alpha", [absorbingHandler, raisingHandler], [], fun tx => (tx, none)⟩

/-! ## The retry / dead-letter handler (`error_handlers.py`) -/

/-- `ErrorHandler` configuration, defaults as in `__init__`. -/
structure ErrorHandler where
  delay_increment : Int := 30
  delayed_retry_count : Int := 3
  immediate_retry_count : Int := 3
  error_message_header : String := "x-error-message"
  error_stack_trace_header : String := "x-error-stack-trace"
  retry_count_header : String := "x-retry-count"

/-- The transport features the retrier consults
(`supports_delayed_commands`, `dead_letter_endpoint`). -/
structure TransportCaps where
  supports_delayed_commands : Bool
  dead_letter_endpoint : String

/-- The bus context the retrier reads: the bus name and its transport. -/
structure BusCtx where
  name : String
  transport : TransportCaps

/-- `ErrorHandler.get_next_retry_time(attempt)`:
`now + attempt * delay_increment` seconds on the integer clock. -/
def ErrorHandler.get_next_retry_time (eh : ErrorHandler) (now : Int) (attempt : Int) : Int :=
  now + attempt * eh.delay_increment

/-- The delayed re-queue message built in the retrier's delayed branch:
`OutgoingMessage(bus, incoming.message, bus.name, incoming.message_info)`
with `deliver_at = get_next_retry_time(delayed_attempt)` and headers a
copy of the incoming headers with `retry_count_header` set to
`str(delayed_attempt)`. -/
def ErrorHandler.mkDelayedMessage {α : Type} (eh : ErrorHandler) (bus : BusCtx)
    (typeOf : α → String) (t : IncomingTransaction α) (now : Int)
    (delayed_attempt : Int) : OutgoingMessage α :=
  let m := OutgoingMessage.initWithInfo typeOf t.incoming_message.message
    (some bus.name) t.incoming_message.message_info
  { m with
    deliver_at := some (eh.get_next_retry_time now delayed_attempt)
    headers := hset t.incoming_message.headers eh.retry_count_header
      (toString delayed_attempt) }

/-- The dead-letter message built when all retries are exhausted:
`OutgoingMessage(bus, incoming.message, transport.dead_letter_endpoint,
incoming.message_info)` with headers a copy of the incoming headers plus
the error message and the formatted stack trace. -/
def ErrorHandler.mkDeadLetterMessage {α : Type} (eh : ErrorHandler) (bus : BusCtx)
    (typeOf : α → String) (t : IncomingTransaction α)
    (errText traceText : String) : OutgoingMessage α :=
  let m := OutgoingMessage.initWithInfo typeOf t.incoming_message.message
    (some bus.transport.dead_letter_endpoint) t.incoming_message.message_info
  { m with
    headers := hset (hset t.incoming_message.headers eh.error_message_header errText)
      eh.error_stack_trace_header traceText }

/-- `next_handler` across the retrier's attempts: the `i`-th invocation
mutates the incoming transaction and may raise. -/
abbrev NextInvocations (α : Type) :=
  Nat → IncomingTransaction α → IncomingTransaction α × Option PyErr

/-- `transaction.outgoing_messages.clear()`. -/
def IncomingTransaction.clearOutgoing {α : Type} (t : IncomingTransaction α) :
    IncomingTransaction α :=
  { t with outgoing_messages := [] }

/-- The immediate-attempt loop of `ErrorHandler.retrier`: `i` is the
current attempt index, `r` the number of attempts left.  On success the
loop breaks; on failure the outgoing batch is cleared, then either the
next attempt runs, or — at the final attempt — the delayed-retry or
dead-letter message is appended.  `format_exc` stands for
`traceback.format_exc()` applied to the pending exception. -/
def ErrorHandler.retrierLoop {α : Type} (eh : ErrorHandler) (bus : BusCtx)
    (typeOf : α → String) (format_exc : PyErr → String) (now : Int)
    (next : NextInvocations α) (delayed_attempt : Int) :
    Nat → Nat → IncomingTransaction α → IncomingTransaction α
  | _, 0, t => t
  | i, r + 1, t =>
    match next i t with
    | (t2, none) => t2
    | (t2, some err) =>
      let t3 := t2.clearOutgoing
      if 0 < r then
        eh.retrierLoop bus typeOf format_exc now next delayed_attempt (i + 1) r t3
      else if bus.transport.supports_delayed_commands
          ∧ delayed_attempt < max 1 eh.delayed_retry_count then
        { t3 with outgoing_messages := t3.outgoing_messages
            ++ [eh.mkDelayedMessage bus typeOf t3 now (delayed_attempt + 1)] }
      else
        { t3 with outgoing_messages := t3.outgoing_messages
            ++ [eh.mkDeadLetterMessage bus typeOf t3 (PyErr.str err) (format_exc err)] }

/-- `ErrorHandler.retrier(transaction, next_handler)`: parse the incoming
`retry_count_header` (missing header defaults to the string "0",
non-numeric parses to 0), then run the immediate attempts — both budgets
floored at 1.  The source has no raise on any path: the handler returns
normally whatever happens. -/
def ErrorHandler.retrier {α : Type} (eh : ErrorHandler) (bus : BusCtx)
    (typeOf : α → String) (format_exc : PyErr → String) (now : Int)
    (next : NextInvocations α) (t : IncomingTransaction α) : IncomingTransaction α :=
  let retry_header := (hget t.incoming_message.headers eh.retry_count_header).getD "0"
  let delayed_attempt := (pyParseInt retry_header).getD 0
  eh.retrierLoop bus typeOf format_exc now next delayed_attempt 0
    (max 1 eh.immediate_retry_count).toNat t

/-- The parse prologue of `retrier`: the incoming `retry_count_header`
read with default "0" and parsed as a Python int, `ValueError` giving 0. -/
def retryAttemptOf {α : Type} (eh : ErrorHandler) (t : IncomingTransaction α) : Int :=
  (pyParseInt ((hget t.incoming_message.headers eh.retry_count_header).getD "0")).getD 0

/-- Follows the claim's words, for comparison with the source: the
outgoing batch is cleared at the top of every immediate attempt, BEFORE
`next` is invoked (the source instead clears after a failure). -/
def ErrorHandler.retrierLoopSpecClear {α : Type} (eh : ErrorHandler) (bus : BusCtx)
    (typeOf : α → String) (format_exc : PyErr → String) (now : Int)
    (next : NextInvocations α) (delayed_attempt : Int) :
    Nat → Nat → IncomingTransaction α → IncomingTransaction α
  | _, 0, t => t
  | i, r + 1, t =>
    match next i t.clearOutgoing with
    | (t2, none) => t2
    | (t2, some err) =>
      if 0 < r then
        eh.retrierLoopSpecClear bus typeOf format_exc now next delayed_attempt (i + 1) r t2
      else if bus.transport.supports_delayed_commands
          ∧ delayed_attempt < max 1 eh.delayed_retry_count then
        { t2 with outgoing_messages := t2.outgoing_messages
            ++ [eh.mkDelayedMessage bus typeOf t2 now (delayed_attempt + 1)] }
      else
        { t2 with outgoing_messages := t2.outgoing_messages
            ++ [eh.mkDeadLetterMessage bus typeOf t2 (PyErr.str err) (format_exc err)] }

/-- The claim-following retrier entry point (clear-before-invoke). -/
def ErrorHandler.retrierSpecClear {α : Type} (eh : ErrorHandler) (bus : BusCtx)
    (typeOf : α → String) (format_exc : PyErr → String) (now : Int)
    (next : NextInvocations α) (t : IncomingTransaction α) : IncomingTransaction α :=
  let retry_header := (hget t.incoming_message.headers eh.retry_count_header).getD "0"
  let delayed_attempt := (pyParseInt retry_header).getD 0
  eh.retrierLoopSpecClear bus typeOf format_exc now next delayed_attempt 0
    (max 1 eh.immediate_retry_count).toNat t

/-- The fail path of the immediate-retry loop: `some (tf, e)` exactly when
every one of the `r` attempts starting at index `i` raises; `tf` is the
state after the final attempt's failure and clear, `e` that attempt's
error.  `none` when some attempt returns normally (or `r = 0`). -/
def failTrace {α : Type} (next : NextInvocations α) :
    Nat → Nat → IncomingTransaction α → Option (IncomingTransaction α × PyErr)
  | _, 0, _ => none
  | i, r + 1, t =>
    match next i t with
    | (_, none) => none
    | (t2, some e) =>
      if 0 < r then failTrace next (i + 1) r t2.clearOutgoing
      else some (t2.clearOutgoing, e)

/-! ### Concrete retrier instances -/

/-- A concrete incoming message with empty headers. -/
def egIncomingMsg : IncomingMessage String := ⟨[], "body", "body", egInfo, "str"⟩

/-- A pre-existing outgoing message sitting in the batch before the
retrier runs. -/
def egPreMsg : OutgoingMessage String :=
  OutgoingMessage.initWithInfo (fun _ => "str") "pre" none egInfo

/-- An incoming transaction whose batch is non-empty when the retrier
starts. -/
def egRetryTx : IncomingTransaction String := ⟨egIncomingMsg, [egPreMsg], 0⟩

/-- A bus over a delayed-capable transport. -/
def egBusCtx : BusCtx := ⟨"alpha", ⟨true, "alpha.dead.letters"⟩⟩

/-- A bus over a transport without delayed-command support. -/
def egBusCtxNoDelay : BusCtx := ⟨"alpha", ⟨false, "alpha.dead.letters"⟩⟩

/-- A `next` that succeeds immediately without touching the transaction. -/
def egNextOk : NextInvocations String := fun _ t => (t, none)

/-- A `next` that always raises without touching the transaction. -/
def egNextFail : NextInvocations String := fun _ t => (t, some (PyErr.user "fail"))

/-! ## Broker routing (`in_memory_message_broker.py`, `_send_async`) -/

/-- Whether `_send_async` dispatches outgoing message `m` to endpoint
`ep`, and with which `is_dead_letter` flag: the source evaluates, for
each endpoint independently,
`is_dead_letter or endpoint.bus.name == message.endpoint or
(message.endpoint is None and (message.message_info.endpoint ==
endpoint.bus.name or endpoint.is_subscribed(message.message_info)))`
where `is_dead_letter = (endpoint.dead_letter_endpoint == message.endpoint)`
(a string never equals Python `None`). -/
def routeDecision {α : Type} (ep : InMemoryEndpoint) (m : OutgoingMessage α) :
    Option Bool :=
  if m.endpoint == some ep.dead_letter_endpoint then some true
  else if m.endpoint == some ep.busName then some false
  else if m.endpoint == none
      && (m.message_info.endpoint == ep.busName || ep.is_subscribed m.message_info) then
    some false
  else none

/-- The broker's recipients for one outgoing message: each endpoint of the
endpoint map together with its `is_dead_letter` flag, in map order. -/
def routedEndpoints {α : Type} (eps : List InMemoryEndpoint) (m : OutgoingMessage α) :
    List (String × Bool) :=
  eps.filterMap (fun ep => (routeDecision ep m).map (fun b => (ep.busName, b)))

/-- The claim's reading of the routing rules, for comparison with the
source: the three checks chained across ALL endpoints, so a dead-letter
match anywhere suppresses the bus-name rule, and a bus-name match
anywhere suppresses broadcast. -/
def claimRoutedEndpoints {α : Type} (eps : List InMemoryEndpoint)
    (m : OutgoingMessage α) : List (String × Bool) :=
  match eps.find? (fun ep => m.endpoint == some ep.dead_letter_endpoint) with
  | some ep => [(ep.busName, true)]
  | none =>
    match eps.find? (fun ep => m.endpoint == some ep.busName) with
    | some ep => [(ep.busName, false)]
    | none =>
      if m.endpoint == none then
        eps.filterMap (fun ep =>
          if m.message_info.endpoint == ep.busName || ep.is_subscribed m.message_info
          then some (ep.busName, false) else none)
      else []

/-! ### Concrete routing instances -/

/-- An endpoint whose bus name happens to equal another endpoint's
dead-letter endpoint name. -/
def epAlias : InMemoryEndpoint := ⟨"b.dead.letters", true, []⟩

/-- An ordinary endpoint named `b` (dead-letter endpoint `b.dead.letters`). -/
def epB : InMemoryEndpoint := ⟨"b", true, []⟩

/-- An outgoing message explicitly addressed to `b.dead.letters`. -/
def egRouteMsg : OutgoingMessage String :=
  OutgoingMessage.initWithInfo (fun _ => "str") "x" (some "b.dead.letters") egInfo

/-! ## Theorems -/

/-- The abort hook records exactly one invocation. -/
theorem abort_increments_abortCount {α : Type} (tx : Transaction α) :
    tx.abort.abortCount = tx.abortCount + 1 := by
  cases tx <;> rfl

/-- The chain built by the reversed-index loop is the right fold of the
pipeline: `handlers[0]` ends up outermost, each handler closing over the
composition of its successors, with the terminal step innermost. -/
theorem composeChain_eq_foldr {α : Type} (handlers : List (PipelineHandler α))
    (term : PipelineStep α) :
    composeChain handlers term = handlers.foldr (fun h next => h next) term := by
  induction handlers with
  | nil => rfl
  | cons h t ih =>
    simp only [composeChain, List.reverse_cons, List.foldl_append, List.foldl_cons,
      List.foldl_nil, List.foldr_cons]
    simp only [composeChain] at ih
    exact congrArg h ih

/-- C10: for every transaction and payload whose type is not registered,
`Transaction.add` (with no explicit MessageInfo) raises
`PolyBusMessageNotFoundError`, whose stable code is 2, and leaves the
transaction — in particular its outgoing message list — unchanged,
because the `OutgoingMessage` constructor performs the registry lookup
before anything is appended. -/
theorem add_unregistered_type_errors_and_preserves_batch {α : Type}
    (reg : Messages) (typeOf : α → String) (tx : Transaction α) (msg : α)
    (endpoint : Option String)
    (h : reg.lookupType (typeOf msg) = none) :
    Transaction.add reg typeOf tx msg endpoint = (tx, .error polyBusMessageNotFoundError)
    ∧ polyBusMessageNotFoundError.error_code = 2
    ∧ (Transaction.add reg typeOf tx msg endpoint).1.outgoing_messages
        = tx.outgoing_messages := by
  have hinit : OutgoingMessage.init reg typeOf msg endpoint none
      = .error polyBusMessageNotFoundError := by
    simp [OutgoingMessage.init, Messages.get_message_info, h]
  refine ⟨?_, rfl, ?_⟩
  · simp [Transaction.add, hinit]
  · simp [Transaction.add, hinit]

/-- C10 witness: a concrete unregistered payload type. -/
theorem add_unregistered_type_errors_and_preserves_batch_witness :
    Transaction.add ⟨[]⟩ (fun _ => "Unregistered") (Transaction.outgoing (α := String) ⟨[], 0⟩)
        "payload" none
      = (Transaction.outgoing ⟨[], 0⟩, .error polyBusMessageNotFoundError)
    ∧ polyBusMessageNotFoundError.error_code = 2
    ∧ (Transaction.add ⟨[]⟩ (fun _ => "Unregistered")
        (Transaction.outgoing (α := String) ⟨[], 0⟩) "payload" none).1.outgoing_messages
      = (Transaction.outgoing (α := String) ⟨[], 0⟩).outgoing_messages :=
  add_unregistered_type_errors_and_preserves_batch ⟨[]⟩ (fun _ => "Unregistered")
    (Transaction.outgoing ⟨[], 0⟩) "payload" none rfl

/-- C9: while the in-memory endpoint is not active (before `start()` or
after `stop()`), `handle` and `subscribe` both raise the NotStarted error
whose stable code is 1; after `start()` neither raises for that reason
(both succeed). -/
theorem endpoint_not_started_behaviour {α : Type} (ep : InMemoryEndpoint)
    (tx : Transaction α) (info : MessageInfo)
    (h : ep.active = false) :
    ep.handle tx = .error polyBusNotStartedError
    ∧ ep.subscribe info = .error polyBusNotStartedError
    ∧ polyBusNotStartedError.error_code = 1
    ∧ ep.start.handle tx = .ok ()
    ∧ (ep.start.subscribe info).isOk = true := by
  refine ⟨?_, ?_, rfl, ?_, ?_⟩
  · simp [InMemoryEndpoint.handle, h]
  · simp [InMemoryEndpoint.subscribe, h]
  · simp [InMemoryEndpoint.handle, InMemoryEndpoint.start]
  · simp [InMemoryEndpoint.subscribe, InMemoryEndpoint.start, Except.isOk, Except.toBool]

/-- C9 witness: a concrete stopped endpoint with a concrete transaction
and message info. -/
theorem endpoint_not_started_behaviour_witness :
    InMemoryEndpoint.handle ⟨"alpha", false, []⟩
        (Transaction.outgoing (α := String) ⟨[], 0⟩)
      = .error polyBusNotStartedError
    ∧ InMemoryEndpoint.subscribe ⟨"alpha", false, []⟩
        ⟨MessageType.event, "alpha", "alpha-event", 1, 0, 0⟩
      = .error polyBusNotStartedError
    ∧ polyBusNotStartedError.error_code = 1
    ∧ InMemoryEndpoint.handle (InMemoryEndpoint.start ⟨"alpha", false, []⟩)
        (Transaction.outgoing (α := String) ⟨[], 0⟩) = .ok ()
    ∧ (InMemoryEndpoint.subscribe (InMemoryEndpoint.start ⟨"alpha", false, []⟩)
        ⟨MessageType.event, "alpha", "alpha-event", 1, 0, 0⟩).isOk = true :=
  endpoint_not_started_behaviour ⟨"alpha", false, []⟩
    (Transaction.outgoing ⟨[], 0⟩) ⟨MessageType.event, "alpha", "alpha-event", 1, 0, 0⟩ rfl

/-- C8: with the default transport factory, `build()` stores the
un-awaited coroutine object of `add_endpoint` as the bus's transport —
not the in-memory endpoint (`ITransport`) that awaiting `add_endpoint`
would have produced.  The third conjunct evaluates what a correctly
awaited `add_endpoint` yields for the same bus. -/
theorem build_default_stores_unawaited_coroutine :
    (PolyBusBuilder.build {}).transport
        = TransportValue.unawaitedAddEndpoint ⟨[]⟩ "polybus"
    ∧ (PolyBusBuilder.build {}).transport.isITransport = false
    ∧ ((⟨[]⟩ : InMemoryMessageBroker).add_endpoint "polybus").2
        = ⟨"polybus", false, []⟩ :=
  ⟨rfl, rfl, rfl⟩

/-- Helper: `send` in terms of the variant-selected chain. -/
theorem send_eq_branch {α : Type} (bus : PolyBus α) (tx : Transaction α) :
    PolyBus.send bus tx =
      (match sendStepOf bus tx tx with
       | (tx2, none) => (tx2, none)
       | (tx2, some e) => (tx2.abort, some e)) := rfl

/-- C7: for every transaction, `PolyBus.send` selects the incoming
pipeline for an incoming transaction and the outgoing pipeline for an
outgoing one, composes the handlers so that `handler[0]` runs outermost —
each handler receiving the transaction and the composition of its
successors as its `next` continuation (the right fold below) — and the
terminal step passes the transaction to the transport's `handle`. -/
theorem send_selects_pipeline_and_composes_outermost_first {α : Type}
    (bus : PolyBus α) (tx : Transaction α) :
    (∀ (h : PipelineHandler α) (hs : List (PipelineHandler α)) (term : PipelineStep α),
      composeChain (h :: hs) term = h (composeChain hs term))
    ∧ (∀ term : PipelineStep α, composeChain [] term = term)
    ∧ bus.send tx =
        (match (match tx with
                | .incoming _ => bus.incoming_pipeline
                | .outgoing _ => bus.outgoing_pipeline).foldr
                  (fun (h : PipelineHandler α) (next : PipelineStep α) => h next)
                  bus.transportHandle tx with
         | (tx2, none) => (tx2, none)
         | (tx2, some e) => (tx2.abort, some e)) := by
  refine ⟨?_, fun term => rfl, ?_⟩
  · intro h hs term
    rw [composeChain_eq_foldr, composeChain_eq_foldr, List.foldr_cons]
  · show PolyBus.send bus tx = _
    unfold PolyBus.send
    cases tx <;> simp only [composeChain_eq_foldr]

/-- C1(counterexample): in the chain `[absorbingHandler, raisingHandler]`
the inner handler's invocation raises (first conjunct: applied to its
`next`, the terminal step, it returns the error), yet `send` completes
with no error to the caller and without ever invoking
`transaction.abort()` — refuting the claim that any handler's raise
leads to one abort and a re-raise. -/
theorem send_absorbed_error_neither_aborts_nor_reraises :
    raisingHandler egAbsorbBus.transportHandle egIncomingTx
        = (egIncomingTx, some (PyErr.user "boom"))
    ∧ egAbsorbBus.send egIncomingTx = (egIncomingTx, none)
    ∧ (egAbsorbBus.send egIncomingTx).1.abortCount = 0 :=
  ⟨rfl, rfl, rfl⟩

/-- C1(amended): `Bus.send` invokes `transaction.abort()` exactly once and
re-raises the same error precisely when the outermost invocation of the
composed chain raises (no handler absorbed the error); when the outermost
invocation returns normally, `send` invokes no abort and reports no
error.  `sendStepOf bus tx` is the chain `send` composes for the
transaction's variant. -/
theorem send_aborts_once_iff_outermost_step_raises {α : Type}
    (bus : PolyBus α) (tx : Transaction α) :
    (PolyBus.send bus tx).2 = (sendStepOf bus tx tx).2
    ∧ (PolyBus.send bus tx).1 =
        (if (sendStepOf bus tx tx).2.isSome
         then (sendStepOf bus tx tx).1.abort
         else (sendStepOf bus tx tx).1)
    ∧ (sendStepOf bus tx tx).1.abort.abortCount
        = (sendStepOf bus tx tx).1.abortCount + 1 := by
  rcases h : sendStepOf bus tx tx with ⟨tx2, eOpt⟩
  refine ⟨?_, ?_, abort_increments_abortCount _⟩ <;>
    cases eOpt <;> simp [send_eq_branch, h]

/-- A run in which every attempt failed ends with a cleared-then-appended
batch base: the final-failure state has an empty outgoing list. -/
theorem failTrace_outgoing_nil {α : Type} (next : NextInvocations α) :
    ∀ (r i : Nat) (t tf : IncomingTransaction α) (e : PyErr),
      failTrace next i r t = some (tf, e) → tf.outgoing_messages = [] := by
  intro r
  induction r with
  | zero => intro i t tf e h; simp [failTrace] at h
  | succ r ih =>
    intro i t tf e h
    rcases hn : next i t with ⟨t2, eOpt⟩
    cases eOpt with
    | none => simp [failTrace, hn] at h
    | some err =>
      simp only [failTrace, hn] at h
      by_cases hr : 0 < r
      · rw [if_pos hr] at h
        exact ih (i + 1) t2.clearOutgoing tf e h
      · rw [if_neg hr] at h
        simp only [Option.some.injEq, Prod.mk.injEq] at h
        obtain ⟨h1, _⟩ := h
        rw [← h1]
        rfl

/-- When `next` never replaces the incoming message, neither does the
fail path of the loop. -/
theorem failTrace_preserves_incoming {α : Type} (next : NextInvocations α)
    (hpres : ∀ (j : Nat) (u : IncomingTransaction α),
      ((next j u).1).incoming_message = u.incoming_message) :
    ∀ (r i : Nat) (t tf : IncomingTransaction α) (e : PyErr),
      failTrace next i r t = some (tf, e) →
      tf.incoming_message = t.incoming_message := by
  intro r
  induction r with
  | zero => intro i t tf e h; simp [failTrace] at h
  | succ r ih =>
    intro i t tf e h
    rcases hn : next i t with ⟨t2, eOpt⟩
    have ht2 : t2.incoming_message = t.incoming_message := by
      have := hpres i t
      rw [hn] at this
      exact this
    cases eOpt with
    | none => simp [failTrace, hn] at h
    | some err =>
      simp only [failTrace, hn] at h
      by_cases hr : 0 < r
      · rw [if_pos hr] at h
        have := ih (i + 1) t2.clearOutgoing tf e h
        rw [this]
        exact ht2
      · rw [if_neg hr] at h
        simp only [Option.some.injEq, Prod.mk.injEq] at h
        obtain ⟨h1, _⟩ := h
        rw [← h1]
        exact ht2

/-- Master lemma: when every immediate attempt fails, the retry loop ends
in the final-failure state with exactly the delayed-retry message (when
the transport supports delayed commands and the attempt count is under
the floored budget) or the dead-letter message appended. -/
theorem retrierLoop_allFail {α : Type} (eh : ErrorHandler) (bus : BusCtx)
    (typeOf : α → String) (fmt : PyErr → String) (now : Int)
    (next : NextInvocations α) (da : Int) :
    ∀ (r i : Nat) (t tf : IncomingTransaction α) (e : PyErr),
      failTrace next i r t = some (tf, e) →
      eh.retrierLoop bus typeOf fmt now next da i r t =
        (if bus.transport.supports_delayed_commands
            ∧ da < max 1 eh.delayed_retry_count then
          { tf with outgoing_messages := tf.outgoing_messages
              ++ [eh.mkDelayedMessage bus typeOf tf now (da + 1)] }
        else
          { tf with outgoing_messages := tf.outgoing_messages
              ++ [eh.mkDeadLetterMessage bus typeOf tf (PyErr.str e) (fmt e)] }) := by
  intro r
  induction r with
  | zero => intro i t tf e h; simp [failTrace] at h
  | succ r ih =>
    intro i t tf e h
    rcases hn : next i t with ⟨t2, eOpt⟩
    cases eOpt with
    | none => simp [failTrace, hn] at h
    | some err =>
      simp only [failTrace, hn] at h
      simp only [ErrorHandler.retrierLoop, hn]
      by_cases hr : 0 < r
      · rw [if_pos hr] at h ⊢
        exact ih (i + 1) t2.clearOutgoing tf e h
      · rw [if_neg hr] at h ⊢
        simp only [Option.some.injEq, Prod.mk.injEq] at h
        obtain ⟨h1, h2⟩ := h
        rw [← h1, ← h2]

/-- C2: in every retrier invocation in which all immediate attempts of
`next` fail (`failTrace` returns the final-failure state), exactly one
message ends up appended to the transaction's outgoing batch — the
delayed re-queue when the transport supports delayed commands and the
parsed attempt count is under the floored delayed budget, the dead
letter otherwise, never both — and the retrier returns normally: the
embedded `ErrorHandler.retrier` is a total function into the transaction
state because the source raises on no path. -/
theorem retrier_allFail_appends_exactly_one {α : Type} (eh : ErrorHandler)
    (bus : BusCtx) (typeOf : α → String) (fmt : PyErr → String) (now : Int)
    (next : NextInvocations α) (t tf : IncomingTransaction α) (e : PyErr)
    (hfail : failTrace next 0 (max 1 eh.immediate_retry_count).toNat t = some (tf, e)) :
    (eh.retrier bus typeOf fmt now next t).outgoing_messages =
      (if bus.transport.supports_delayed_commands
          ∧ retryAttemptOf eh t < max 1 eh.delayed_retry_count then
        [eh.mkDelayedMessage bus typeOf tf now (retryAttemptOf eh t + 1)]
      else
        [eh.mkDeadLetterMessage bus typeOf tf (PyErr.str e) (fmt e)]) := by
  have hnil := failTrace_outgoing_nil next _ 0 t tf e hfail
  have hmaster := retrierLoop_allFail eh bus typeOf fmt now next (retryAttemptOf eh t)
    (max 1 eh.immediate_retry_count).toNat 0 t tf e hfail
  show (eh.retrierLoop bus typeOf fmt now next (retryAttemptOf eh t) 0
      (max 1 eh.immediate_retry_count).toNat t).outgoing_messages = _
  rw [hmaster]
  by_cases hc : bus.transport.supports_delayed_commands
      ∧ retryAttemptOf eh t < max 1 eh.delayed_retry_count
  · rw [if_pos hc, if_pos hc, hnil]
    rfl
  · rw [if_neg hc, if_neg hc, hnil]
    rfl

/-- C2 witness: with default configuration over a delayed-capable
transport, a `next` failing on all three immediate attempts leaves the
batch holding exactly the delayed re-queue message. -/
theorem retrier_allFail_appends_exactly_one_witness :
    (ErrorHandler.retrier {} egBusCtx (fun _ => "str") PyErr.str 0 egNextFail
        egRetryTx).outgoing_messages =
      (if egBusCtx.transport.supports_delayed_commands
          ∧ retryAttemptOf {} egRetryTx < max 1 ({} : ErrorHandler).delayed_retry_count then
        [ErrorHandler.mkDelayedMessage {} egBusCtx (fun _ => "str")
          ⟨egIncomingMsg, [], 0⟩ 0 (retryAttemptOf {} egRetryTx + 1)]
      else
        [ErrorHandler.mkDeadLetterMessage {} egBusCtx (fun _ => "str")
          ⟨egIncomingMsg, [], 0⟩ (PyErr.str (PyErr.user "fail"))
          (PyErr.str (PyErr.user "fail"))]) :=
  retrier_allFail_appends_exactly_one {} egBusCtx (fun _ => "str") PyErr.str 0
    egNextFail egRetryTx ⟨egIncomingMsg, [], 0⟩ (PyErr.user "fail") rfl

/-- C4: when all immediate attempts fail and the dead-letter branch is
taken (no delayed-command support, or the parsed attempt count has
reached the floored delayed budget), exactly one message is appended: it
is addressed to `transport.dead_letter_endpoint`, carries the original
incoming message's payload and MessageInfo (`next` assumed not to
replace the incoming message), and its headers are a copy of the
incoming headers plus `error_message_header = str(error)` and
`error_stack_trace_header =` the formatted stack trace; the retrier then
returns without raising (it is total in the embedding). -/
theorem retrier_dead_letter_message_content {α : Type} (eh : ErrorHandler)
    (bus : BusCtx) (typeOf : α → String) (fmt : PyErr → String) (now : Int)
    (next : NextInvocations α) (t tf : IncomingTransaction α) (e : PyErr)
    (hpres : ∀ (j : Nat) (u : IncomingTransaction α),
      ((next j u).1).incoming_message = u.incoming_message)
    (hfail : failTrace next 0 (max 1 eh.immediate_retry_count).toNat t = some (tf, e))
    (hcond : ¬(bus.transport.supports_delayed_commands
        ∧ retryAttemptOf eh t < max 1 eh.delayed_retry_count)) :
    (eh.retrier bus typeOf fmt now next t).outgoing_messages =
      [eh.mkDeadLetterMessage bus typeOf tf (PyErr.str e) (fmt e)]
    ∧ (eh.mkDeadLetterMessage bus typeOf tf (PyErr.str e) (fmt e)).endpoint
        = some bus.transport.dead_letter_endpoint
    ∧ (eh.mkDeadLetterMessage bus typeOf tf (PyErr.str e) (fmt e)).message
        = t.incoming_message.message
    ∧ (eh.mkDeadLetterMessage bus typeOf tf (PyErr.str e) (fmt e)).message_info
        = t.incoming_message.message_info
    ∧ (eh.mkDeadLetterMessage bus typeOf tf (PyErr.str e) (fmt e)).headers
        = hset (hset t.incoming_message.headers eh.error_message_header (PyErr.str e))
            eh.error_stack_trace_header (fmt e) := by
  have hnil := failTrace_outgoing_nil next _ 0 t tf e hfail
  have hinc := failTrace_preserves_incoming next hpres _ 0 t tf e hfail
  have hmaster := retrierLoop_allFail eh bus typeOf fmt now next (retryAttemptOf eh t)
    (max 1 eh.immediate_retry_count).toNat 0 t tf e hfail
  refine ⟨?_, rfl, ?_, ?_, ?_⟩
  · show (eh.retrierLoop bus typeOf fmt now next (retryAttemptOf eh t) 0
        (max 1 eh.immediate_retry_count).toNat t).outgoing_messages = _
    rw [hmaster, if_neg hcond, hnil]
    rfl
  · show tf.incoming_message.message = t.incoming_message.message
    rw [hinc]
  · show tf.incoming_message.message_info = t.incoming_message.message_info
    rw [hinc]
  · show hset (hset tf.incoming_message.headers eh.error_message_header (PyErr.str e))
        eh.error_stack_trace_header (fmt e) = _
    rw [hinc]

/-- C4 witness: default configuration over a transport without
delayed-command support; a `next` failing on every attempt yields exactly
the dead-letter message with the expected endpoint, payload, info and
headers. -/
theorem retrier_dead_letter_message_content_witness :
    (ErrorHandler.retrier {} egBusCtxNoDelay (fun _ => "str") PyErr.str 0 egNextFail
        egRetryTx).outgoing_messages =
      [ErrorHandler.mkDeadLetterMessage {} egBusCtxNoDelay (fun _ => "str")
        ⟨egIncomingMsg, [], 0⟩ (PyErr.str (PyErr.user "fail")) (PyErr.str (PyErr.user "fail"))]
    ∧ (ErrorHandler.mkDeadLetterMessage {} egBusCtxNoDelay (fun _ => "str")
        ⟨egIncomingMsg, [], 0⟩ (PyErr.str (PyErr.user "fail"))
        (PyErr.str (PyErr.user "fail"))).endpoint
        = some egBusCtxNoDelay.transport.dead_letter_endpoint
    ∧ (ErrorHandler.mkDeadLetterMessage {} egBusCtxNoDelay (fun _ => "str")
        ⟨egIncomingMsg, [], 0⟩ (PyErr.str (PyErr.user "fail"))
        (PyErr.str (PyErr.user "fail"))).message
        = egRetryTx.incoming_message.message
    ∧ (ErrorHandler.mkDeadLetterMessage {} egBusCtxNoDelay (fun _ => "str")
        ⟨egIncomingMsg, [], 0⟩ (PyErr.str (PyErr.user "fail"))
        (PyErr.str (PyErr.user "fail"))).message_info
        = egRetryTx.incoming_message.message_info
    ∧ (ErrorHandler.mkDeadLetterMessage {} egBusCtxNoDelay (fun _ => "str")
        ⟨egIncomingMsg, [], 0⟩ (PyErr.str (PyErr.user "fail"))
        (PyErr.str (PyErr.user "fail"))).headers
        = hset (hset egRetryTx.incoming_message.headers
            ({} : ErrorHandler).error_message_header (PyErr.str (PyErr.user "fail")))
            ({} : ErrorHandler).error_stack_trace_header (PyErr.str (PyErr.user "fail")) :=
  retrier_dead_letter_message_content {} egBusCtxNoDelay (fun _ => "str") PyErr.str 0
    egNextFail egRetryTx ⟨egIncomingMsg, [], 0⟩ (PyErr.user "fail")
    (fun _ _ => rfl) rfl (by decide)

/-- C5: when all immediate attempts fail, the transport supports delayed
commands and the parsed attempt count (missing or non-numeric header
parsing as 0, built into `retryAttemptOf`) is strictly below the floored
delayed budget, exactly one message is appended: addressed to the bus's
own name, carrying the original incoming payload and MessageInfo
(`next` assumed not to replace the incoming message), with
`deliver_at = now + (delayed_attempt + 1) * delay_increment` seconds and
headers a copy of the incoming headers with `retry_count_header` set to
`delayed_attempt + 1`. -/
theorem retrier_delayed_retry_message_content {α : Type} (eh : ErrorHandler)
    (bus : BusCtx) (typeOf : α → String) (fmt : PyErr → String) (now : Int)
    (next : NextInvocations α) (t tf : IncomingTransaction α) (e : PyErr)
    (hpres : ∀ (j : Nat) (u : IncomingTransaction α),
      ((next j u).1).incoming_message = u.incoming_message)
    (hfail : failTrace next 0 (max 1 eh.immediate_retry_count).toNat t = some (tf, e))
    (hcond : bus.transport.supports_delayed_commands
        ∧ retryAttemptOf eh t < max 1 eh.delayed_retry_count) :
    (eh.retrier bus typeOf fmt now next t).outgoing_messages =
      [eh.mkDelayedMessage bus typeOf tf now (retryAttemptOf eh t + 1)]
    ∧ (eh.mkDelayedMessage bus typeOf tf now (retryAttemptOf eh t + 1)).endpoint
        = some bus.name
    ∧ (eh.mkDelayedMessage bus typeOf tf now (retryAttemptOf eh t + 1)).message
        = t.incoming_message.message
    ∧ (eh.mkDelayedMessage bus typeOf tf now (retryAttemptOf eh t + 1)).message_info
        = t.incoming_message.message_info
    ∧ (eh.mkDelayedMessage bus typeOf tf now (retryAttemptOf eh t + 1)).deliver_at
        = some (now + (retryAttemptOf eh t + 1) * eh.delay_increment)
    ∧ (eh.mkDelayedMessage bus typeOf tf now (retryAttemptOf eh t + 1)).headers
        = hset t.incoming_message.headers eh.retry_count_header
            (toString (retryAttemptOf eh t + 1)) := by
  have hnil := failTrace_outgoing_nil next _ 0 t tf e hfail
  have hinc := failTrace_preserves_incoming next hpres _ 0 t tf e hfail
  have hmaster := retrierLoop_allFail eh bus typeOf fmt now next (retryAttemptOf eh t)
    (max 1 eh.immediate_retry_count).toNat 0 t tf e hfail
  refine ⟨?_, rfl, ?_, ?_, rfl, ?_⟩
  · show (eh.retrierLoop bus typeOf fmt now next (retryAttemptOf eh t) 0
        (max 1 eh.immediate_retry_count).toNat t).outgoing_messages = _
    rw [hmaster, if_pos hcond, hnil]
    rfl
  · show tf.incoming_message.message = t.incoming_message.message
    rw [hinc]
  · show tf.incoming_message.message_info = t.incoming_message.message_info
    rw [hinc]
  · show hset tf.incoming_message.headers eh.retry_count_header _ = _
    rw [hinc]

/-- C5 witness: default configuration over a delayed-capable transport; a
`next` failing on every attempt yields exactly the re-queue message with
the bus's own name, `deliver_at = 0 + 1 * 30` and `x-retry-count = "1"`. -/
theorem retrier_delayed_retry_message_content_witness :
    (ErrorHandler.retrier {} egBusCtx (fun _ => "str") PyErr.str 0 egNextFail
        egRetryTx).outgoing_messages =
      [ErrorHandler.mkDelayedMessage {} egBusCtx (fun _ => "str")
        ⟨egIncomingMsg, [], 0⟩ 0 (retryAttemptOf {} egRetryTx + 1)]
    ∧ (ErrorHandler.mkDelayedMessage {} egBusCtx (fun _ => "str")
        ⟨egIncomingMsg, [], 0⟩ 0 (retryAttemptOf {} egRetryTx + 1)).endpoint
        = some egBusCtx.name
    ∧ (ErrorHandler.mkDelayedMessage {} egBusCtx (fun _ => "str")
        ⟨egIncomingMsg, [], 0⟩ 0 (retryAttemptOf {} egRetryTx + 1)).message
        = egRetryTx.incoming_message.message
    ∧ (ErrorHandler.mkDelayedMessage {} egBusCtx (fun _ => "str")
        ⟨egIncomingMsg, [], 0⟩ 0 (retryAttemptOf {} egRetryTx + 1)).message_info
        = egRetryTx.incoming_message.message_info
    ∧ (ErrorHandler.mkDelayedMessage {} egBusCtx (fun _ => "str")
        ⟨egIncomingMsg, [], 0⟩ 0 (retryAttemptOf {} egRetryTx + 1)).deliver_at
        = some (0 + (retryAttemptOf {} egRetryTx + 1) * ({} : ErrorHandler).delay_increment)
    ∧ (ErrorHandler.mkDelayedMessage {} egBusCtx (fun _ => "str")
        ⟨egIncomingMsg, [], 0⟩ 0 (retryAttemptOf {} egRetryTx + 1)).headers
        = hset egRetryTx.incoming_message.headers ({} : ErrorHandler).retry_count_header
            (toString (retryAttemptOf {} egRetryTx + 1)) :=
  retrier_delayed_retry_message_content {} egBusCtx (fun _ => "str") PyErr.str 0
    egNextFail egRetryTx ⟨egIncomingMsg, [], 0⟩ (PyErr.user "fail")
    (fun _ _ => rfl) rfl (by decide)

/-- C6(counterexample): with a `next` that succeeds at once without
touching the transaction and a batch that is non-empty when the retrier
starts, the source retrier returns the batch intact — the pre-existing
message survived into (and past) the first invocation of `next` — while
the claim-following clear-before-invoke variant returns an empty batch:
the batch is NOT cleared before `next` is invoked on the first attempt. -/
theorem retrier_first_attempt_sees_preexisting_batch :
    (ErrorHandler.retrier {} egBusCtx (fun _ => "str") PyErr.str 0 egNextOk
        egRetryTx).outgoing_messages = [egPreMsg]
    ∧ (ErrorHandler.retrierSpecClear {} egBusCtx (fun _ => "str") PyErr.str 0 egNextOk
        egRetryTx).outgoing_messages = []
    ∧ (ErrorHandler.retrier {} egBusCtx (fun _ => "str") PyErr.str 0 egNextOk
        egRetryTx).outgoing_messages ≠
      (ErrorHandler.retrierSpecClear {} egBusCtx (fun _ => "str") PyErr.str 0 egNextOk
        egRetryTx).outgoing_messages := by
  have h1 : (ErrorHandler.retrier {} egBusCtx (fun _ => "str") PyErr.str 0 egNextOk
      egRetryTx).outgoing_messages = [egPreMsg] := rfl
  have h2 : (ErrorHandler.retrierSpecClear {} egBusCtx (fun _ => "str") PyErr.str 0 egNextOk
      egRetryTx).outgoing_messages = [] := rfl
  refine ⟨h1, h2, ?_⟩
  rw [h1, h2]
  exact List.cons_ne_nil _ _

/-- C6(amended): the outgoing batch is cleared immediately AFTER each
failed attempt — before any subsequent attempt and before the
retry/dead-letter append — so every attempt following a failure starts
from an empty batch and no partial output of a failed attempt survives;
the batch is not cleared before the first invocation of `next` (the
counterexample), so messages present when the retrier starts reach the
first attempt. -/
theorem retrier_clears_after_each_failed_attempt {α : Type} (eh : ErrorHandler)
    (bus : BusCtx) (typeOf : α → String) (fmt : PyErr → String) (now : Int)
    (next : NextInvocations α) (da : Int) (i r : Nat)
    (t t2 : IncomingTransaction α) (e : PyErr)
    (hstep : next i t = (t2, some e)) (hr : 0 < r) :
    eh.retrierLoop bus typeOf fmt now next da i (r + 1) t
      = eh.retrierLoop bus typeOf fmt now next da (i + 1) r t2.clearOutgoing
    ∧ t2.clearOutgoing.outgoing_messages = [] := by
  constructor
  · simp only [ErrorHandler.retrierLoop, hstep]
    rw [if_pos hr]
  · rfl

/-- C6(amended) witness: the first of two remaining attempts fails on a
non-empty batch; the loop continues on the cleared state. -/
theorem retrier_clears_after_each_failed_attempt_witness :
    ErrorHandler.retrierLoop {} egBusCtx (fun _ => "str") PyErr.str 0 egNextFail 0 0 2
        egRetryTx
      = ErrorHandler.retrierLoop {} egBusCtx (fun _ => "str") PyErr.str 0 egNextFail 0 1 1
          egRetryTx.clearOutgoing
    ∧ egRetryTx.clearOutgoing.outgoing_messages = [] :=
  retrier_clears_after_each_failed_attempt {} egBusCtx (fun _ => "str") PyErr.str 0
    egNextFail 0 0 1 egRetryTx egRetryTx (PyErr.user "fail") rfl (by decide)

/-- Per-endpoint characterization of the broker's dispatch decision: an
endpoint gets the message as a dead letter iff its own
`dead_letter_endpoint` equals the message's endpoint; otherwise normally
iff its bus name equals the message's endpoint; otherwise — only when the
message's endpoint is unset — iff the MessageInfo's endpoint is its bus
name or it is subscribed under the without-version string. -/
theorem routeDecision_eq_some_iff {α : Type} (ep : InMemoryEndpoint)
    (m : OutgoingMessage α) (b : Bool) :
    routeDecision ep m = some b ↔
      ((b = true ∧ m.endpoint = some ep.dead_letter_endpoint)
       ∨ (b = false ∧ m.endpoint ≠ some ep.dead_letter_endpoint
           ∧ m.endpoint = some ep.busName)
       ∨ (b = false ∧ m.endpoint = none
           ∧ (m.message_info.endpoint = ep.busName
              ∨ m.message_info.to_string false ∈ ep.subscriptions))) := by
  unfold routeDecision InMemoryEndpoint.is_subscribed
  split_ifs with h1 h2 h3
  · rw [beq_iff_eq] at h1
    cases b with
    | true => simp [h1]
    | false => simp [h1]
  · simp only [beq_iff_eq] at h1 h2
    cases b with
    | true =>
      have hne : ¬(ep.busName = ep.dead_letter_endpoint) := fun hh => h1 (by rw [h2, hh])
      simp [h1, h2, hne]
    | false =>
      rw [h2] at h1 ⊢
      simp [h1]
  · simp only [Bool.and_eq_true, Bool.or_eq_true, beq_iff_eq, List.contains,
      List.elem_iff] at h3
    simp only [beq_iff_eq] at h1 h2
    obtain ⟨hnone, hrest⟩ := h3
    cases b with
    | true => simp [hnone]
    | false => simp [hnone, hrest]
  · simp only [Bool.and_eq_true, Bool.or_eq_true, beq_iff_eq, List.contains,
      List.elem_iff, not_and, not_or] at h3
    simp only [beq_iff_eq] at h1 h2
    constructor
    · intro hfalse
      exact absurd hfalse (by simp)
    · rintro (⟨_, hc⟩ | ⟨_, _, hc⟩ | ⟨_, hnone, hc⟩)
      · exact absurd hc h1
      · exact absurd hc h2
      · rcases h3 hnone with ⟨ha, hb⟩
        rcases hc with hc | hc
        · exact absurd hc ha
        · exact absurd hc hb

/-- C3(counterexample): endpoints named `b.dead.letters` and `b`, and a
message addressed to `b.dead.letters`.  The source delivers to BOTH — a
normal delivery to the endpoint whose bus name matches and a dead-letter
delivery to the endpoint whose dead-letter name matches — while the
claim's global else-chain delivers only the dead letter, so the claim's
"else ... exactly that endpoint receives it" reading is false. -/
theorem routing_counterexample_dead_letter_name_clash :
    routedEndpoints [epAlias, epB] egRouteMsg
        = [("b.dead.letters", false), ("b", true)]
    ∧ claimRoutedEndpoints [epAlias, epB] egRouteMsg = [("b", true)]
    ∧ routedEndpoints [epAlias, epB] egRouteMsg
        ≠ claimRoutedEndpoints [epAlias, epB] egRouteMsg := by
  refine ⟨by decide, by decide, by decide⟩

/-- C3(amended): the broker evaluates the three routing rules for each
endpoint independently (no global else-chain): an endpoint receives the
message as a dead letter iff its `dead_letter_endpoint` equals the
message's endpoint; otherwise it receives it normally iff its bus name
equals the message's endpoint; otherwise — only with the message's
endpoint unset — it receives its own copy iff the MessageInfo's endpoint
equals its bus name or it is subscribed to the MessageInfo, where
subscription matching uses the MessageInfo string without version and so
ignores the version (second conjunct). -/
theorem broker_routing_characterization {α : Type} (eps : List InMemoryEndpoint)
    (m : OutgoingMessage α) (n : String) (b : Bool) :
    ((n, b) ∈ routedEndpoints eps m ↔
      ∃ ep ∈ eps, ep.busName = n ∧
        ((b = true ∧ m.endpoint = some ep.dead_letter_endpoint)
         ∨ (b = false ∧ m.endpoint ≠ some ep.dead_letter_endpoint
             ∧ m.endpoint = some ep.busName)
         ∨ (b = false ∧ m.endpoint = none
             ∧ (m.message_info.endpoint = ep.busName
                ∨ m.message_info.to_string false ∈ ep.subscriptions))))
    ∧ (∀ (i j : MessageInfo) (ep : InMemoryEndpoint),
        i.message_type = j.message_type → i.endpoint = j.endpoint → i.name = j.name →
        ep.is_subscribed i = ep.is_subscribed j) := by
  constructor
  · rw [routedEndpoints, List.mem_filterMap]
    constructor
    · rintro ⟨ep, hmem, hmap⟩
      rcases Option.map_eq_some'.mp hmap with ⟨b2, hdec, hpair⟩
      rcases Prod.mk.injEq .. ▸ hpair with ⟨hn, hb⟩
      exact ⟨ep, hmem, hn, (routeDecision_eq_some_iff ep m b).mp (hb ▸ hdec)⟩
    · rintro ⟨ep, hmem, hn, hchar⟩
      exact ⟨ep, hmem, by
        rw [(routeDecision_eq_some_iff ep m b).mpr hchar]
        simp [hn]⟩
  · intro i j ep h1 h2 h3
    unfold InMemoryEndpoint.is_subscribed MessageInfo.to_string
    rw [h1, h2, h3]
    simp
